import Mathlib

/-!
Verification of the react-learning repository's executable surface.

The repository ships two executable modules, both in `website/`:
the sidebar definition (`sidebars.ts`) and the Docusaurus site
configuration (`docusaurus.config.ts`).  Both are TypeScript modules
whose exported value is built from literal expressions, two member
accesses on an imported object (`prismThemes.github`,
`prismThemes.dracula`), one call `new Date().getFullYear()`, and one
template literal interpolating that call.  We embed exactly this
fragment of JavaScript as a small expression language with a strict
evaluator, transcribe each module's exported expression as an AST, and
prove the claims about their evaluation.

The rest of the repository is markdown; its file inventory and
front-matter are transcribed into a table (`repoFiles`) for the claims
about documents and navigation closure.
-/

mutual
/-- A runtime JavaScript value, restricted to the shapes the two
configuration modules produce: strings, integers, booleans, arrays,
objects with string keys, and opaque values imported from external
packages (the two Prism theme objects), tagged by their import path. -/
inductive JSValue where
  | str (s : String)
  | num (n : Int)
  | bool (b : Bool)
  | ext (tag : String)
  | arr (vs : JSValueList)
  | obj (fs : JSFieldVals)
  deriving Repr, DecidableEq

/-- A list of values (array elements). -/
inductive JSValueList where
  | nil
  | cons (v : JSValue) (vs : JSValueList)
  deriving Repr, DecidableEq

/-- A list of evaluated object fields. -/
inductive JSFieldVals where
  | nil
  | cons (k : String) (v : JSValue) (fs : JSFieldVals)
  deriving Repr, DecidableEq
end

/-- Build a `JSValueList` from a Lean list literal. -/
def JSValueList.ofList : List JSValue → JSValueList
  | [] => .nil
  | v :: vs => .cons v (ofList vs)

/-- Build a `JSFieldVals` from a Lean list literal. -/
def JSFieldVals.ofList : List (String × JSValue) → JSFieldVals
  | [] => .nil
  | (k, v) :: fs => .cons k v (ofList fs)

/-- Look up an object field by key. -/
def JSFieldVals.lookup (k : String) : JSFieldVals → Option JSValue
  | .nil => none
  | .cons k' v fs => if k' = k then some v else lookup k fs

mutual
/-- An expression of the JavaScript fragment the two modules use:
literals, arrays, object literals, reading an imported binding, member
access, the call chain `new Date().getFullYear()`, and a template
literal with one interpolated expression. -/
inductive JSExpr where
  | str (s : String)
  | num (n : Int)
  | bool (b : Bool)
  | var (name : String)
  | member (e : JSExpr) (field : String)
  | newDateGetFullYear
  | interp (before : String) (e : JSExpr) (after : String)
  | arr (es : JSExprList)
  | obj (fs : JSFieldList)
  deriving Repr

/-- A list of expressions (array elements). -/
inductive JSExprList where
  | nil
  | cons (e : JSExpr) (es : JSExprList)
  deriving Repr

/-- A list of object-literal fields. -/
inductive JSFieldList where
  | nil
  | cons (k : String) (v : JSExpr) (fs : JSFieldList)
  deriving Repr
end

/-- Build a `JSExprList` from a Lean list literal. -/
def JSExprList.ofList : List JSExpr → JSExprList
  | [] => .nil
  | e :: es => .cons e (ofList es)

/-- Build a `JSFieldList` from a Lean list literal. -/
def JSFieldList.ofList : List (String × JSExpr) → JSFieldList
  | [] => .nil
  | (k, v) :: fs => .cons k v (ofList fs)

/-- The evaluation environment: the current year (what
`new Date().getFullYear()` returns in the run) and the module's
imported bindings. -/
structure JSEnv where
  year : Int
  vars : List (String × JSValue)

mutual
/-- Strict evaluation of an expression.  Reading an absent binding,
member access on a non-object or absent field, and interpolating a
non-printable value are runtime errors; every other form is total. -/
def JSExpr.evalE (env : JSEnv) : JSExpr → Except String JSValue
  | .str s => .ok (.str s)
  | .num n => .ok (.num n)
  | .bool b => .ok (.bool b)
  | .var x =>
      match env.vars.lookup x with
      | some v => .ok v
      | none => .error ("unbound variable " ++ x)
  | .member e f =>
      match JSExpr.evalE env e with
      | .ok (.obj fs) =>
          match fs.lookup f with
          | some v => .ok v
          | none => .error ("undefined field " ++ f)
      | .ok _ => .error ("member access on non-object " ++ f)
      | .error msg => .error msg
  -- the only call chain in the source: new Date().getFullYear()
  | .newDateGetFullYear => .ok (.num env.year)
  | .interp before e after =>
      match JSExpr.evalE env e with
      | .ok (.str s) => .ok (.str (before ++ s ++ after))
      | .ok (.num n) => .ok (.str (before ++ toString n ++ after))
      | .ok (.bool b) => .ok (.str (before ++ toString b ++ after))
      | .ok _ => .error "cannot stringify value"
      | .error msg => .error msg
  | .arr es =>
      match JSExprList.evalL env es with
      | .ok vs => .ok (.arr vs)
      | .error msg => .error msg
  | .obj fs =>
      match JSFieldList.evalF env fs with
      | .ok kvs => .ok (.obj kvs)
      | .error msg => .error msg

/-- Evaluate array elements left to right. -/
def JSExprList.evalL (env : JSEnv) : JSExprList → Except String JSValueList
  | .nil => .ok .nil
  | .cons e es =>
      match JSExpr.evalE env e with
      | .ok v =>
          match JSExprList.evalL env es with
          | .ok vs => .ok (.cons v vs)
          | .error msg => .error msg
      | .error msg => .error msg

/-- Evaluate object fields left to right. -/
def JSFieldList.evalF (env : JSEnv) : JSFieldList → Except String JSFieldVals
  | .nil => .ok .nil
  | .cons k v fs =>
      match JSExpr.evalE env v with
      | .ok w =>
          match JSFieldList.evalF env fs with
          | .ok kvs => .ok (.cons k w kvs)
          | .error msg => .error msg
      | .error msg => .error msg
end

/-- An object literal of the category shape used in `sidebars.ts`:
fields `type`, `label`, `collapsed`, `items` in source order, with
`items` an array of doc-id string literals. -/
def categoryExpr (label : String) (collapsed : Bool) (items : List String) : JSExpr :=
  .obj (.ofList
    [("type", .str "category"),
     ("label", .str label),
     ("collapsed", .bool collapsed),
     ("items", .arr (.ofList (items.map JSExpr.str)))])

/-- The exported expression of `website/sidebars.ts`, transcribed from
the source: the object `\x7b courseSidebar: [...] \x7d`. -/
def sidebarsAST : JSExpr :=
  .obj (.ofList
    [("courseSidebar", .arr (.ofList
      [JSExpr.str "intro",
       categoryExpr "Part 1: React Fundamentals" false
         ["chapters/00-react-architecture",
          "chapters/01-setup-first-component",
          "chapters/02-state-and-events",
          "chapters/03-component-composition",
          "chapters/04-side-effects-lifecycle",
          "chapters/05-context-global-state",
          "chapters/06-custom-hooks"],
       categoryExpr "Part 2: Routing & Forms" true
         ["chapters/07-react-router",
          "chapters/08-forms-validation"],
       categoryExpr "Part 3: Tailwind CSS" true
         ["chapters/09-tailwind-fundamentals",
          "chapters/10-advanced-tailwind"],
       categoryExpr "Part 4: shadcn/ui" true
         ["chapters/11-shadcn-setup-core",
          "chapters/12-shadcn-complex-components",
          "chapters/13-data-display",
          "chapters/14-shadcn-forms",
          "chapters/15-theming-polish"],
       categoryExpr "Part 5: Production" true
         ["chapters/16-performance",
          "chapters/17-testing"]]))])

/-- The value of a category object after evaluation. -/
def categoryVal (label : String) (collapsed : Bool) (items : List String) : JSValue :=
  .obj (.ofList
    [("type", .str "category"),
     ("label", .str label),
     ("collapsed", .bool collapsed),
     ("items", .arr (.ofList (items.map JSValue.str)))])

/-- The value `sidebars.ts` evaluates to. -/
def sidebarsValue : JSValue :=
  .obj (.ofList
    [("courseSidebar", .arr (.ofList
      [JSValue.str "intro",
       categoryVal "Part 1: React Fundamentals" false
         ["chapters/00-react-architecture",
          "chapters/01-setup-first-component",
          "chapters/02-state-and-events",
          "chapters/03-component-composition",
          "chapters/04-side-effects-lifecycle",
          "chapters/05-context-global-state",
          "chapters/06-custom-hooks"],
       categoryVal "Part 2: Routing & Forms" true
         ["chapters/07-react-router",
          "chapters/08-forms-validation"],
       categoryVal "Part 3: Tailwind CSS" true
         ["chapters/09-tailwind-fundamentals",
          "chapters/10-advanced-tailwind"],
       categoryVal "Part 4: shadcn/ui" true
         ["chapters/11-shadcn-setup-core",
          "chapters/12-shadcn-complex-components",
          "chapters/13-data-display",
          "chapters/14-shadcn-forms",
          "chapters/15-theming-polish"],
       categoryVal "Part 5: Production" true
         ["chapters/16-performance",
          "chapters/17-testing"]]))])

/-- Evaluating the sidebar module needs no imports and no clock: it
evaluates to `sidebarsValue` in every environment. -/
theorem evalE_sidebarsAST (env : JSEnv) :
    JSExpr.evalE env sidebarsAST = .ok sidebarsValue := rfl

/-- The exported expression of `website/docusaurus.config.ts`,
transcribed field by field from the source.  `prismThemes` is the
binding imported from `prism-react-renderer`; the copyright line is the
template literal interpolating `new Date().getFullYear()`. -/
def configAST : JSExpr :=
  .obj (.ofList
    [("title", .str "Learn React by Building"),
     ("tagline", .str "A project-based React 19 curriculum — from mental models to production UI"),
     ("favicon", .str "img/favicon.ico"),
     ("future", .obj (.ofList [("v4", .bool true)])),
     ("url", .str "https://bobby-openclaw.github.io"),
     ("baseUrl", .str "/react-learning/"),
     ("organizationName", .str "bobby-openclaw"),
     ("projectName", .str "react-learning"),
     ("onBrokenLinks", .str "warn"),
     ("i18n", .obj (.ofList
       [("defaultLocale", .str "en"),
        ("locales", .arr (.ofList [JSExpr.str "en"]))])),
     ("markdown", .obj (.ofList [("mermaid", .bool true)])),
     ("themes", .arr (.ofList
       [JSExpr.str "@docusaurus/theme-live-codeblock",
        JSExpr.str "@docusaurus/theme-mermaid"])),
     ("presets", .arr (.ofList
       [JSExpr.arr (.ofList
         [JSExpr.str "classic",
          .obj (.ofList
            [("docs", .obj (.ofList
               [("sidebarPath", .str "./sidebars.ts"),
                ("editUrl", .str "https://github.com/bobby-openclaw/react-learning/tree/main/website/"),
                ("routeBasePath", .str "/")])),
             ("blog", .bool false),
             ("theme", .obj (.ofList
               [("customCss", .str "./src/css/custom.css")]))])])])),
     ("themeConfig", .obj (.ofList
       [("image", .str "img/react-learning-social.png"),
        ("colorMode", .obj (.ofList
          [("defaultMode", .str "dark"),
           ("respectPrefersColorScheme", .bool true)])),
        ("navbar", .obj (.ofList
          [("title", .str "Learn React"),
           ("logo", .obj (.ofList
             [("alt", .str "React Logo"),
              ("src", .str "img/logo.svg")])),
           ("items", .arr (.ofList
             [JSExpr.obj (.ofList
               [("type", .str "docSidebar"),
                ("sidebarId", .str "courseSidebar"),
                ("position", .str "left"),
                ("label", .str "Course")]),
              JSExpr.obj (.ofList
               [("href", .str "https://github.com/bobby-openclaw/taskflow-app"),
                ("label", .str "TaskFlow Code"),
                ("position", .str "left")]),
              JSExpr.obj (.ofList
               [("href", .str "https://github.com/bobby-openclaw/react-learning"),
                ("label", .str "GitHub"),
                ("position", .str "right")])]))])),
        ("footer", .obj (.ofList
          [("style", .str "dark"),
           ("links", .arr (.ofList
             [JSExpr.obj (.ofList
               [("title", .str "Course"),
                ("items", .arr (.ofList
                  [JSExpr.obj (.ofList
                    [("label", .str "Part 1: React Fundamentals"),
                     ("to", .str "/category/part-1-react-fundamentals")]),
                   JSExpr.obj (.ofList
                    [("label", .str "Part 2: Tailwind CSS"),
                     ("to", .str "/category/part-2-tailwind-css")]),
                   JSExpr.obj (.ofList
                    [("label", .str "Part 3: shadcn/ui"),
                     ("to", .str "/category/part-3-shadcnui")])]))]),
              JSExpr.obj (.ofList
               [("title", .str "Resources"),
                ("items", .arr (.ofList
                  [JSExpr.obj (.ofList
                    [("label", .str "TaskFlow Companion Repo"),
                     ("href", .str "https://github.com/bobby-openclaw/taskflow-app")]),
                   JSExpr.obj (.ofList
                    [("label", .str "React Docs"),
                     ("href", .str "https://react.dev")]),
                   JSExpr.obj (.ofList
                    [("label", .str "Tailwind Docs"),
                     ("href", .str "https://tailwindcss.com")])]))]),
              JSExpr.obj (.ofList
               [("title", .str "More"),
                ("items", .arr (.ofList
                  [JSExpr.obj (.ofList
                    [("label", .str "GitHub"),
                     ("href", .str "https://github.com/bobby-openclaw/react-learning")])]))])])),
           ("copyright", .interp "Built with React 19 in mind. Last updated "
             .newDateGetFullYear ".")])),
        ("prism", .obj (.ofList
          [("theme", .member (.var "prismThemes") "github"),
           ("darkTheme", .member (.var "prismThemes") "dracula"),
           ("additionalLanguages", .arr (.ofList
             [JSExpr.str "bash", JSExpr.str "json",
              JSExpr.str "typescript", JSExpr.str "tsx"]))]))]))])

/-- The import environment in which the two modules run: the Prism
theme objects imported from `prism-react-renderer` are opaque external
values, and `year` is whatever `new Date().getFullYear()` returns in
the run. -/
def stdEnv (year : Int) : JSEnv :=
  { year := year,
    vars := [("prismThemes", .obj (.ofList
      [("github", .ext "prismThemes.github"),
       ("dracula", .ext "prismThemes.dracula")]))] }

/-- The value `docusaurus.config.ts` evaluates to when
`new Date().getFullYear()` returns `year`. -/
def configValue (year : Int) : JSValue :=
  .obj (.ofList
    [("title", .str "Learn React by Building"),
     ("tagline", .str "A project-based React 19 curriculum — from mental models to production UI"),
     ("favicon", .str "img/favicon.ico"),
     ("future", .obj (.ofList [("v4", .bool true)])),
     ("url", .str "https://bobby-openclaw.github.io"),
     ("baseUrl", .str "/react-learning/"),
     ("organizationName", .str "bobby-openclaw"),
     ("projectName", .str "react-learning"),
     ("onBrokenLinks", .str "warn"),
     ("i18n", .obj (.ofList
       [("defaultLocale", .str "en"),
        ("locales", .arr (.ofList [JSValue.str "en"]))])),
     ("markdown", .obj (.ofList [("mermaid", .bool true)])),
     ("themes", .arr (.ofList
       [JSValue.str "@docusaurus/theme-live-codeblock",
        JSValue.str "@docusaurus/theme-mermaid"])),
     ("presets", .arr (.ofList
       [JSValue.arr (.ofList
         [JSValue.str "classic",
          .obj (.ofList
            [("docs", .obj (.ofList
               [("sidebarPath", .str "./sidebars.ts"),
                ("editUrl", .str "https://github.com/bobby-openclaw/react-learning/tree/main/website/"),
                ("routeBasePath", .str "/")])),
             ("blog", .bool false),
             ("theme", .obj (.ofList
               [("customCss", .str "./src/css/custom.css")]))])])])),
     ("themeConfig", .obj (.ofList
       [("image", .str "img/react-learning-social.png"),
        ("colorMode", .obj (.ofList
          [("defaultMode", .str "dark"),
           ("respectPrefersColorScheme", .bool true)])),
        ("navbar", .obj (.ofList
          [("title", .str "Learn React"),
           ("logo", .obj (.ofList
             [("alt", .str "React Logo"),
              ("src", .str "img/logo.svg")])),
           ("items", .arr (.ofList
             [JSValue.obj (.ofList
               [("type", .str "docSidebar"),
                ("sidebarId", .str "courseSidebar"),
                ("position", .str "left"),
                ("label", .str "Course")]),
              JSValue.obj (.ofList
               [("href", .str "https://github.com/bobby-openclaw/taskflow-app"),
                ("label", .str "TaskFlow Code"),
                ("position", .str "left")]),
              JSValue.obj (.ofList
               [("href", .str "https://github.com/bobby-openclaw/react-learning"),
                ("label", .str "GitHub"),
                ("position", .str "right")])]))])),
        ("footer", .obj (.ofList
          [("style", .str "dark"),
           ("links", .arr (.ofList
             [JSValue.obj (.ofList
               [("title", .str "Course"),
                ("items", .arr (.ofList
                  [JSValue.obj (.ofList
                    [("label", .str "Part 1: React Fundamentals"),
                     ("to", .str "/category/part-1-react-fundamentals")]),
                   JSValue.obj (.ofList
                    [("label", .str "Part 2: Tailwind CSS"),
                     ("to", .str "/category/part-2-tailwind-css")]),
                   JSValue.obj (.ofList
                    [("label", .str "Part 3: shadcn/ui"),
                     ("to", .str "/category/part-3-shadcnui")])]))]),
              JSValue.obj (.ofList
               [("title", .str "Resources"),
                ("items", .arr (.ofList
                  [JSValue.obj (.ofList
                    [("label", .str "TaskFlow Companion Repo"),
                     ("href", .str "https://github.com/bobby-openclaw/taskflow-app")]),
                   JSValue.obj (.ofList
                    [("label", .str "React Docs"),
                     ("href", .str "https://react.dev")]),
                   JSValue.obj (.ofList
                    [("label", .str "Tailwind Docs"),
                     ("href", .str "https://tailwindcss.com")])]))]),
              JSValue.obj (.ofList
               [("title", .str "More"),
                ("items", .arr (.ofList
                  [JSValue.obj (.ofList
                    [("label", .str "GitHub"),
                     ("href", .str "https://github.com/bobby-openclaw/react-learning")])]))])])),
           ("copyright", .str ("Built with React 19 in mind. Last updated " ++ toString year ++ "."))])),
        ("prism", .obj (.ofList
          [("theme", .ext "prismThemes.github"),
           ("darkTheme", .ext "prismThemes.dracula"),
           ("additionalLanguages", .arr (.ofList
             [JSValue.str "bash", JSValue.str "json",
              JSValue.str "typescript", JSValue.str "tsx"]))]))]))])

/-- Evaluating the site configuration in the import environment
succeeds for every year, producing `configValue year`. -/
theorem evalE_configAST (year : Int) :
    JSExpr.evalE (stdEnv year) configAST = .ok (configValue year) := rfl

/-- Convert a `JSValueList` back to a Lean list. -/
def JSValueList.toList : JSValueList → List JSValue
  | .nil => []
  | .cons v vs => v :: toList vs

/-- Convert a `JSFieldVals` back to a Lean association list. -/
def JSFieldVals.toList : JSFieldVals → List (String × JSValue)
  | .nil => []
  | .cons k v fs => (k, v) :: toList fs

/-- Read a field of an object value. -/
def JSValue.getField (v : JSValue) (k : String) : Option JSValue :=
  match v with
  | .obj fs => fs.lookup k
  | _ => none

/-- Apply `f` to the values stored under key `k`. -/
def JSFieldVals.updateAt (k : String) (f : JSValue → JSValue) : JSFieldVals → JSFieldVals
  | .nil => .nil
  | .cons k' v fs => .cons k' (if k' = k then f v else v) (updateAt k f fs)

/-- Apply `f` to the value of field `k` of an object; leave any other
value unchanged. -/
def JSValue.updateField (k : String) (f : JSValue → JSValue) : JSValue → JSValue
  | .obj fs => .obj (fs.updateAt k f)
  | v => v

/-- Mask the one clock-dependent field of an evaluated site
configuration: `themeConfig.footer.copyright`. -/
def maskCopyright (v : JSValue) : JSValue :=
  v.updateField "themeConfig" (fun tc =>
    tc.updateField "footer" (fun ft =>
      ft.updateField "copyright" (fun _ => .str "")))

/-- C1: evaluating the repository's only executable modules is total:
in every run (whatever year the clock returns), the sidebar module and
the site configuration both evaluate without reaching any error branch
of the semantics, producing their configuration values. -/
theorem C1_modules_evaluate_totally (year : Int) :
    JSExpr.evalE (stdEnv year) sidebarsAST = .ok sidebarsValue ∧
    JSExpr.evalE (stdEnv year) configAST = .ok (configValue year) :=
  ⟨evalE_sidebarsAST (stdEnv year), evalE_configAST year⟩

/-- C1 witness: the two modules evaluate successfully in the concrete
run where the clock returns 2025. -/
theorem C1_witness :
    JSExpr.evalE (stdEnv 2025) sidebarsAST = .ok sidebarsValue ∧
    JSExpr.evalE (stdEnv 2025) configAST = .ok (configValue 2025) :=
  C1_modules_evaluate_totally 2025

/-- C4 counterexample: the site configuration is not pure data: a run
in which `new Date().getFullYear()` returns 2024 and one in which it
returns 2025 evaluate the module to different values, because the
footer copyright embeds the current year. -/
theorem C4_counterexample :
    JSExpr.evalE (stdEnv 2024) configAST ≠ JSExpr.evalE (stdEnv 2025) configAST := by
  rw [evalE_configAST, evalE_configAST]
  simp only [ne_eq, Except.ok.injEq]
  decide

/-- C4 amended: the sidebar module is pure data (identical value in any
two environments), and the site configuration is pure data except for
`themeConfig.footer.copyright`, which embeds the year the clock
returns: with that one field masked, any two environments agree. -/
theorem C4_pure_data_except_copyright (y1 y2 : Int) :
    JSExpr.evalE (stdEnv y1) sidebarsAST = JSExpr.evalE (stdEnv y2) sidebarsAST ∧
    Except.map maskCopyright (JSExpr.evalE (stdEnv y1) configAST) =
      Except.map maskCopyright (JSExpr.evalE (stdEnv y2) configAST) := by
  refine ⟨rfl, ?_⟩
  rw [evalE_configAST, evalE_configAST]
  rfl

/-- C4 witness: the amended statement at the concrete years 2024 and
2025. -/
theorem C4_witness :
    JSExpr.evalE (stdEnv 2024) sidebarsAST = JSExpr.evalE (stdEnv 2025) sidebarsAST ∧
    Except.map maskCopyright (JSExpr.evalE (stdEnv 2024) configAST) =
      Except.map maskCopyright (JSExpr.evalE (stdEnv 2025) configAST) :=
  C4_pure_data_except_copyright 2024 2025

/-- The keys of an object value, in order. -/
def objKeys (v : JSValue) : List String :=
  match v with
  | .obj fs => fs.toList.map Prod.fst
  | _ => []

/-- The top-level entries of `courseSidebar` in an evaluated sidebar
value. -/
def courseSidebarEntries (v : JSValue) : List JSValue :=
  match v.getField "courseSidebar" with
  | some (.arr vs) => vs.toList
  | _ => []

/-- Whether a value is a plain doc-id string. -/
def isDocIdVal : JSValue → Bool
  | .str _ => true
  | _ => false

/-- The doc-id strings of a category's `items` array. -/
def categoryItems (v : JSValue) : List String :=
  match v.getField "items" with
  | some (.arr vs) =>
      vs.toList.filterMap (fun w =>
        match w with
        | .str s => some s
        | _ => none)
  | _ => []

/-- The `label` of a category value, when it is a string. -/
def categoryLabel (v : JSValue) : Option String :=
  match v.getField "label" with
  | some (.str s) => some s
  | _ => none

/-- A flat category: an object whose `type` is the string `category`,
with a string `label` and whose `items` are all plain doc-id strings —
in particular no category nested inside another. -/
def isFlatCategory (v : JSValue) : Bool :=
  (match v.getField "type" with
   | some (.str "category") => true
   | _ => false) &&
  (categoryLabel v).isSome &&
  (match v.getField "items" with
   | some (.arr vs) => vs.toList.all isDocIdVal
   | _ => false)

/-- The numeric value of a decimal digit character. -/
def digitVal (c : Char) : Option Nat :=
  if c.isDigit then some (c.toNat - 48) else none

/-- The two-digit chapter number of a doc id of the form
`chapters/NN-name`. -/
def chapterNumOf (s : String) : Option Nat :=
  match s.toList with
  | 'c' :: 'h' :: 'a' :: 'p' :: 't' :: 'e' :: 'r' :: 's' :: '/' :: d1 :: d2 :: _ =>
      match digitVal d1, digitVal d2 with
      | some a, some b => some (10 * a + b)
      | _, _ => none
  | _ => none

/-- All doc ids referenced by one top-level sidebar entry: the string
itself for a doc entry, the items for a category. -/
def entryDocIds (v : JSValue) : List String :=
  match v with
  | .str s => [s]
  | _ => categoryItems v

/-- Every doc id referenced by the evaluated sidebar, in tree order. -/
def sidebarDocIds (v : JSValue) : List String :=
  ((courseSidebarEntries v).map entryDocIds).flatten

/-- The ordered labels of the sidebar's categories. -/
def categoryLabels (v : JSValue) : List String :=
  (courseSidebarEntries v).filterMap categoryLabel

/-- C5: the sidebar module exports a single navigation tree
`courseSidebar`: the doc id `intro` followed by exactly five flat
categories, each with a label and an ordered list of doc-id strings, no
category nested in another, and the eighteen chapter identifiers 00
through 17 appear in ascending chapter order. -/
theorem C5_sidebar_is_single_ordered_tree :
    JSExpr.evalE (stdEnv 0) sidebarsAST = .ok sidebarsValue ∧
    objKeys sidebarsValue = ["courseSidebar"] ∧
    (courseSidebarEntries sidebarsValue).head? = some (.str "intro") ∧
    (courseSidebarEntries sidebarsValue).tail.length = 5 ∧
    (courseSidebarEntries sidebarsValue).tail.all isFlatCategory = true ∧
    (((courseSidebarEntries sidebarsValue).tail.map categoryItems).flatten).length = 18 ∧
    ((((courseSidebarEntries sidebarsValue).tail.map categoryItems).flatten).filterMap chapterNumOf)
      = List.range 18 :=
  ⟨evalE_sidebarsAST (stdEnv 0), by decide⟩

/-- C10: no doc id is listed twice anywhere in the evaluated
navigation tree: not in two categories, not twice in one category, and
not both at top level and inside a category. -/
theorem C10_doc_ids_listed_once : (sidebarDocIds sidebarsValue).Nodup := by
  decide

/-- The navbar items of an evaluated site configuration. -/
def navbarItemsOf (v : JSValue) : Option (List JSValue) :=
  match (v.getField "themeConfig").bind (fun tc =>
          (tc.getField "navbar").bind (fun nb => nb.getField "items")) with
  | some (.arr vs) => some vs.toList
  | _ => none

/-- The footer link groups of an evaluated site configuration. -/
def footerLinkGroupsOf (v : JSValue) : Option (List JSValue) :=
  match (v.getField "themeConfig").bind (fun tc =>
          (tc.getField "footer").bind (fun ft => ft.getField "links")) with
  | some (.arr vs) => some vs.toList
  | _ => none

/-- The Prism `additionalLanguages` list of an evaluated site
configuration. -/
def prismAdditionalLanguagesOf (v : JSValue) : Option (List String) :=
  match (v.getField "themeConfig").bind (fun tc =>
          (tc.getField "prism").bind (fun pr => pr.getField "additionalLanguages")) with
  | some (.arr vs) =>
      some (vs.toList.filterMap (fun w =>
        match w with
        | .str s => some s
        | _ => none))
  | _ => none

/-- The `colorMode` object of an evaluated site configuration. -/
def colorModeOf (v : JSValue) : Option JSValue :=
  (v.getField "themeConfig").bind (fun tc => tc.getField "colorMode")

/-- C6: the evaluated configuration supplies exactly the stated
surface: the site metadata (title, url, baseUrl), a navbar with three
entries, a footer with three link groups, the four Prism
additionalLanguages, and the dark default color mode respecting the
user's scheme preference — in every run. -/
theorem C6_config_surface (year : Int) :
    JSExpr.evalE (stdEnv year) configAST = .ok (configValue year) ∧
    (configValue year).getField "title" = some (.str "Learn React by Building") ∧
    (configValue year).getField "url" = some (.str "https://bobby-openclaw.github.io") ∧
    (configValue year).getField "baseUrl" = some (.str "/react-learning/") ∧
    (navbarItemsOf (configValue year)).map List.length = some 3 ∧
    (footerLinkGroupsOf (configValue year)).map List.length = some 3 ∧
    prismAdditionalLanguagesOf (configValue year) =
      some ["bash", "json", "typescript", "tsx"] ∧
    (colorModeOf (configValue year)).bind (fun cm => cm.getField "defaultMode") =
      some (.str "dark") ∧
    (colorModeOf (configValue year)).bind (fun cm => cm.getField "respectPrefersColorScheme") =
      some (.bool true) :=
  ⟨evalE_configAST year, rfl, rfl, rfl, rfl, rfl, rfl, rfl, rfl⟩

/-- C6 witness: the configuration surface in the concrete run where
the clock returns 2025. -/
theorem C6_witness :
    JSExpr.evalE (stdEnv 2025) configAST = .ok (configValue 2025) ∧
    (configValue 2025).getField "title" = some (.str "Learn React by Building") ∧
    (configValue 2025).getField "url" = some (.str "https://bobby-openclaw.github.io") ∧
    (configValue 2025).getField "baseUrl" = some (.str "/react-learning/") ∧
    (navbarItemsOf (configValue 2025)).map List.length = some 3 ∧
    (footerLinkGroupsOf (configValue 2025)).map List.length = some 3 ∧
    prismAdditionalLanguagesOf (configValue 2025) =
      some ["bash", "json", "typescript", "tsx"] ∧
    (colorModeOf (configValue 2025)).bind (fun cm => cm.getField "defaultMode") =
      some (.str "dark") ∧
    (colorModeOf (configValue 2025)).bind (fun cm => cm.getField "respectPrefersColorScheme") =
      some (.bool true) :=
  C6_config_surface 2025

/-- The `title` of a footer link group, when it is a string. -/
def groupTitle (g : JSValue) : Option String :=
  match g.getField "title" with
  | some (.str s) => some s
  | _ => none

/-- The labels of a footer link group's items. -/
def groupItemLabels (g : JSValue) : List String :=
  match g.getField "items" with
  | some (.arr vs) =>
      vs.toList.filterMap (fun it =>
        match it.getField "label" with
        | some (.str s) => some s
        | _ => none)
  | _ => []

/-- The labels of the footer's `Course` link group. -/
def footerCourseLabels (v : JSValue) : List String :=
  (((footerLinkGroupsOf v).getD []).filter
      (fun g => groupTitle g == some "Course")).map groupItemLabels |>.flatten

/-- C9: the footer's Course group names "Part 2: Tailwind CSS" and
"Part 3: shadcn/ui", but the sidebar labels its categories
"Part 2: Routing & Forms", "Part 3: Tailwind CSS", "Part 4: shadcn/ui";
those two footer labels match no category label of the sidebar. -/
theorem C9_footer_part_labels_mismatch :
    footerCourseLabels (configValue 2025) =
      ["Part 1: React Fundamentals", "Part 2: Tailwind CSS", "Part 3: shadcn/ui"] ∧
    categoryLabels sidebarsValue =
      ["Part 1: React Fundamentals", "Part 2: Routing & Forms", "Part 3: Tailwind CSS",
       "Part 4: shadcn/ui", "Part 5: Production"] ∧
    "Part 2: Tailwind CSS" ∉ categoryLabels sidebarsValue ∧
    "Part 3: shadcn/ui" ∉ categoryLabels sidebarsValue := by
  decide

/-- One document of the repository as shipped.  The staging tree
bundles several repository documents into one file, separated by
document markers: `website/sidebars.ts` holds the sidebar module and
the Docusaurus configuration module,
`website/docs/chapters/14-shadcn-forms.md` holds six markdown
documents, `unnamed/part_004` holds two, and
`chapters/03-component-composition/CHAPTER.md` holds two.
`stagedPath` is the staged file holding the document and `segment` its
zero-based position inside that file; the original standalone path of
a bundled document (any entry with positive `segment`, and the five
`unnamed/part_k` files) is not preserved by the staging.  `isMarkdown`
and `isSiteConfig` classify the document; `inWebsiteDocs` is true only
when the document is certainly consumed by the Docusaurus docs plugin:
it is the first document of a file staged under `website/docs/`, or it
carries Docusaurus front-matter (`id` and `sidebar_position`).
`fmKeys` lists the keys of the document's leading front-matter block
in order, empty when it opens with no such block; `fmId` is the value
of its `id` key when present; `chapter` is the chapter number the
lesson covers, `none` for non-chapter documents. -/
structure RepoFile where
  stagedPath : String
  segment : Nat
  isMarkdown : Bool
  isSiteConfig : Bool
  inWebsiteDocs : Bool
  fmKeys : List String
  fmId : Option String
  chapter : Option Nat
  deriving Repr, DecidableEq

/-- The twenty-five documents of the repository — twenty-three
markdown documents and the two configuration modules — transcribed
from the seventeen staged files, one entry per separator-delimited
document. -/
def repoFiles : List RepoFile :=
  [{ stagedPath := "README.md", segment := 0, isMarkdown := true,
     isSiteConfig := false, inWebsiteDocs := false, fmKeys := [],
     fmId := none, chapter := none },
   { stagedPath := "REFERENCE.md", segment := 0, isMarkdown := true,
     isSiteConfig := false, inWebsiteDocs := false, fmKeys := [],
     fmId := none, chapter := none },
   { stagedPath := "chapters/03-component-composition/CHAPTER.md", segment := 0,
     isMarkdown := true, isSiteConfig := false, inWebsiteDocs := false,
     fmKeys := [], fmId := none, chapter := some 3 },
   { stagedPath := "chapters/03-component-composition/CHAPTER.md", segment := 1,
     isMarkdown := true, isSiteConfig := false, inWebsiteDocs := false,
     fmKeys := [], fmId := none, chapter := some 15 },
   { stagedPath := "chapters/05-context-global-state/CHAPTER.md", segment := 0,
     isMarkdown := true, isSiteConfig := false, inWebsiteDocs := false,
     fmKeys := [], fmId := none, chapter := some 5 },
   { stagedPath := "chapters/06-custom-hooks/CHAPTER.md", segment := 0,
     isMarkdown := true, isSiteConfig := false, inWebsiteDocs := false,
     fmKeys := [], fmId := none, chapter := some 6 },
   { stagedPath := "chapters/07-react-router/CHAPTER.md", segment := 0,
     isMarkdown := true, isSiteConfig := false, inWebsiteDocs := false,
     fmKeys := [], fmId := none, chapter := some 7 },
   { stagedPath := "unnamed/part_000", segment := 0, isMarkdown := true,
     isSiteConfig := false, inWebsiteDocs := true,
     fmKeys := ["id", "sidebar_position", "title"],
     fmId := some "16-performance", chapter := some 16 },
   { stagedPath := "unnamed/part_001", segment := 0, isMarkdown := true,
     isSiteConfig := false, inWebsiteDocs := true,
     fmKeys := ["id", "sidebar_position", "title"],
     fmId := some "15-theming-polish", chapter := some 15 },
   { stagedPath := "unnamed/part_002", segment := 0, isMarkdown := true,
     isSiteConfig := false, inWebsiteDocs := true,
     fmKeys := ["id", "sidebar_position", "title"],
     fmId := some "17-testing", chapter := some 17 },
   { stagedPath := "unnamed/part_003", segment := 0, isMarkdown := true,
     isSiteConfig := false, inWebsiteDocs := true,
     fmKeys := ["id", "sidebar_position", "title"],
     fmId := some "00-react-architecture", chapter := some 0 },
   { stagedPath := "unnamed/part_004", segment := 0, isMarkdown := true,
     isSiteConfig := false, inWebsiteDocs := false, fmKeys := [],
     fmId := none, chapter := some 2 },
   { stagedPath := "unnamed/part_004", segment := 1, isMarkdown := true,
     isSiteConfig := false, inWebsiteDocs := false, fmKeys := [],
     fmId := none, chapter := some 10 },
   { stagedPath := "website/sidebars.ts", segment := 0, isMarkdown := false,
     isSiteConfig := true, inWebsiteDocs := false, fmKeys := [],
     fmId := none, chapter := none },
   { stagedPath := "website/sidebars.ts", segment := 1, isMarkdown := false,
     isSiteConfig := true, inWebsiteDocs := false, fmKeys := [],
     fmId := none, chapter := none },
   { stagedPath := "website/docs/intro.md", segment := 0, isMarkdown := true,
     isSiteConfig := false, inWebsiteDocs := true,
     fmKeys := ["sidebar_position", "title", "slug"],
     fmId := none, chapter := none },
   { stagedPath := "website/docs/chapters/08-forms-validation.md", segment := 0,
     isMarkdown := true, isSiteConfig := false, inWebsiteDocs := true,
     fmKeys := ["id", "sidebar_position", "title"],
     fmId := some "08-forms-validation", chapter := some 8 },
   { stagedPath := "website/docs/chapters/09-tailwind-fundamentals.md", segment := 0,
     isMarkdown := true, isSiteConfig := false, inWebsiteDocs := true,
     fmKeys := ["id", "sidebar_position", "title"],
     fmId := some "09-tailwind-fundamentals", chapter := some 9 },
   { stagedPath := "website/docs/chapters/11-shadcn-setup-core.md", segment := 0,
     isMarkdown := true, isSiteConfig := false, inWebsiteDocs := true,
     fmKeys := ["id", "sidebar_position", "title"],
     fmId := some "11-shadcn-setup-core", chapter := some 11 },
   { stagedPath := "website/docs/chapters/14-shadcn-forms.md", segment := 0,
     isMarkdown := true, isSiteConfig := false, inWebsiteDocs := true,
     fmKeys := ["id", "sidebar_position", "title"],
     fmId := some "14-shadcn-forms", chapter := some 14 },
   { stagedPath := "website/docs/chapters/14-shadcn-forms.md", segment := 1,
     isMarkdown := true, isSiteConfig := false, inWebsiteDocs := true,
     fmKeys := ["id", "sidebar_position", "title"],
     fmId := some "04-side-effects-lifecycle", chapter := some 4 },
   { stagedPath := "website/docs/chapters/14-shadcn-forms.md", segment := 2,
     isMarkdown := true, isSiteConfig := false, inWebsiteDocs := true,
     fmKeys := ["id", "sidebar_position", "title"],
     fmId := some "13-data-display", chapter := some 13 },
   { stagedPath := "website/docs/chapters/14-shadcn-forms.md", segment := 3,
     isMarkdown := true, isSiteConfig := false, inWebsiteDocs := true,
     fmKeys := ["id", "sidebar_position", "title"],
     fmId := some "01-setup-first-component", chapter := some 1 },
   { stagedPath := "website/docs/chapters/14-shadcn-forms.md", segment := 4,
     isMarkdown := true, isSiteConfig := false, inWebsiteDocs := false,
     fmKeys := [], fmId := none, chapter := some 0 },
   { stagedPath := "website/docs/chapters/14-shadcn-forms.md", segment := 5,
     isMarkdown := true, isSiteConfig := false, inWebsiteDocs := false,
     fmKeys := [], fmId := none, chapter := some 12 }]

/-- Whether the first character list is a leading segment of the
second. -/
def listLeads : List Char → List Char → Bool
  | [], _ => true
  | _ :: _, [] => false
  | c :: cs, d :: ds => c == d && listLeads cs ds

/-- Whether `needle` occurs inside the character list. -/
def containsSubAux (needle : List Char) : List Char → Bool
  | [] => listLeads needle []
  | c :: cs => listLeads needle (c :: cs) || containsSubAux needle cs

/-- Whether `needle` occurs as a substring of `hay`, computed on the
character lists. -/
def containsSub (hay needle : String) : Bool :=
  containsSubAux needle.toList hay.toList

/-- C2: every document of the repository — the bundled ones included —
is markdown content or static-site configuration, and no staged path
lies in an `examples/`, `project/` or `solution/` implementation tree,
so no TaskFlow application source is wired into any build, test, or
runtime. -/
theorem C2_only_markdown_and_config :
    repoFiles.all (fun f => f.isMarkdown || f.isSiteConfig) = true ∧
    repoFiles.all (fun f =>
      !(containsSub f.stagedPath "examples/") && !(containsSub f.stagedPath "project/") &&
        !(containsSub f.stagedPath "solution/")) = true := by
  decide

/-- Whether a front-matter key list carries all three keys `id`,
`sidebar_position`, and `title`. -/
def hasAllThreeKeys (keys : List String) : Bool :=
  keys.contains "id" && keys.contains "sidebar_position" && keys.contains "title"

/-- C3 counterexample: it is not the case that every markdown lesson
document consumed by the generator carries `id`, `sidebar_position`,
and `title`: `website/docs/intro.md` declares `sidebar_position`,
`title`, `slug` but no `id`. -/
theorem C3_counterexample :
    ((repoFiles.filter (fun f => f.inWebsiteDocs)).all
      (fun f => hasAllThreeKeys f.fmKeys)) = false := by
  decide

/-- C3 amended: every consumed lesson document that declares a
front-matter `id` — including the chapter 1, 4 and 13 documents
bundled in the staged `14-shadcn-forms.md` — also carries
`sidebar_position` and `title`; but `intro.md` keys its front-matter
`sidebar_position`, `title`, `slug` with no `id`, and the chapter 2
lesson document opens with no front-matter block at all. -/
theorem C3_front_matter_amended :
    ((repoFiles.filter (fun f => f.inWebsiteDocs && f.fmId.isSome)).all
      (fun f => hasAllThreeKeys f.fmKeys)) = true ∧
    (repoFiles.filter (fun f => f.stagedPath == "website/docs/intro.md")).map RepoFile.fmKeys
      = [["sidebar_position", "title", "slug"]] ∧
    (repoFiles.filter (fun f =>
        f.stagedPath == "unnamed/part_004" && f.segment == 0)).map RepoFile.fmKeys
      = [[]] := by
  decide

/-- The chapter numbers covered by some markdown document of the
repository. -/
def shippedChapters : List Nat :=
  repoFiles.filterMap RepoFile.chapter

/-- C8 counterexample: the repository does ship markdown documents for
the identifiers the claim names: documents with front-matter ids
`01-setup-first-component`, `04-side-effects-lifecycle` and
`13-data-display` are bundled in the staged `14-shadcn-forms.md`, and
full lesson documents for chapters 10 and 12 are bundled in the staged
`part_004` and `14-shadcn-forms.md`. -/
theorem C8_counterexample :
    (repoFiles.any (fun f =>
      f.isMarkdown && f.fmId == some "01-setup-first-component")) = true ∧
    (repoFiles.any (fun f =>
      f.isMarkdown && f.fmId == some "04-side-effects-lifecycle")) = true ∧
    (repoFiles.any (fun f =>
      f.isMarkdown && f.fmId == some "13-data-display")) = true ∧
    (repoFiles.any (fun f => f.isMarkdown && f.chapter == some 10)) = true ∧
    (repoFiles.any (fun f => f.isMarkdown && f.chapter == some 12)) = true := by
  decide

/-- C8 amended: the navigation tree is closed at the chapter level:
every chapter number named by a doc id of the evaluated sidebar is
covered by a shipped markdown lesson document; in particular chapters
1, 4 and 13 are covered by documents carrying exactly those
front-matter ids, and chapters 10 and 12 by full lesson documents
bundled in the staged files. -/
theorem C8_chapters_all_covered :
    (((sidebarDocIds sidebarsValue).filterMap chapterNumOf).all
      (fun n => shippedChapters.contains n)) = true ∧
    (["01-setup-first-component", "04-side-effects-lifecycle",
      "13-data-display"].all
        (fun stem => repoFiles.any (fun f => f.fmId == some stem))) = true ∧
    ([10, 12].all (fun n => shippedChapters.contains n)) = true := by
  decide


/-- Modelled from the spec: the Docusaurus build itself is an external
tool, not part of this repository; the spec says the configuration
"would be validated (if at all) by the Docusaurus build succeeding and
links resolving".  Docusaurus aborts the build over unresolved links
only when the site's `onBrokenLinks` option is set to `throw`; under
`warn` (or `ignore`/`log`) it reports them and the build succeeds. -/
def docusaurusBuildFails (onBrokenLinks : String) (hasBrokenLinks : Bool) : Bool :=
  hasBrokenLinks && (onBrokenLinks == "throw")

/-- The `onBrokenLinks` setting of an evaluated site configuration. -/
def onBrokenLinksOf (v : JSValue) : Option JSValue :=
  v.getField "onBrokenLinks"

/-- C7 counterexample: the shipped configuration sets `onBrokenLinks`
to `warn`, and under that policy a site with an unresolved link still
builds successfully — build success does not imply that all links
resolve. -/
theorem C7_counterexample :
    Except.map onBrokenLinksOf (JSExpr.evalE (stdEnv 2025) configAST)
      = .ok (some (.str "warn")) ∧
    docusaurusBuildFails "warn" true = false := by
  refine ⟨?_, rfl⟩
  rw [evalE_configAST]
  rfl

/-- C7 amended: under the shipped configuration the build never fails
because of link resolution: `onBrokenLinks` is `warn`, so unresolved
links only produce warnings, whether or not any link is broken. -/
theorem C7_warn_never_fails_build (hasBrokenLinks : Bool) :
    Except.map onBrokenLinksOf (JSExpr.evalE (stdEnv 2025) configAST)
      = .ok (some (.str "warn")) ∧
    docusaurusBuildFails "warn" hasBrokenLinks = false := by
  constructor
  · rw [evalE_configAST]; rfl
  · cases hasBrokenLinks <;> rfl

/-- C7 witness: the amended statement with a broken link present. -/
theorem C7_witness :
    Except.map onBrokenLinksOf (JSExpr.evalE (stdEnv 2025) configAST)
      = .ok (some (.str "warn")) ∧
    docusaurusBuildFails "warn" true = false :=
  C7_warn_never_fails_build true
